import Mathlib

/-!
Shallow embedding of the Authelia authorization-builder component
(internal/handlers/handler_authz_builder.go), the WebAuthn user loader
(internal/handlers/webauthn.go) and the preferred-2FA-method loader
(internal/storage/sql_provider.go), together with theorems settling the
specification claims about them.

Go durations (time.Duration) are modelled as Int nanoseconds. Types and
constants declared elsewhere in the repository (the AuthzImpl enumeration,
the strategy name constants, the schema configuration structures, the
duration parser) are modelled from the specification and carry a doc
comment saying so.
-/

namespace Authelia

/-- Go time.Duration: a signed count of nanoseconds. -/
abbrev Duration := Int

/-- Go time.Second expressed in nanoseconds. -/
def timeSecond : Duration := 1000000000

/-- Modelled from the spec: the five AuthnStrategy variants (spec §3:
variant tags CookieSession, HeaderAuthorization, HeaderProxyAuthorization,
HeaderAuthRequestProxyAuthorization, HeaderLegacy; CookieSession carries a
bound RefreshInterval). The concrete strategy types live outside src/. -/
inductive AuthnStrategy where
  | CookieSession (refreshInterval : Duration)
  | HeaderAuthorization
  | HeaderProxyAuthorization
  | HeaderAuthRequestProxyAuthorization
  | HeaderLegacy
deriving DecidableEq

/-- Modelled from the spec: NewCookieSessionAuthnStrategy binds the given
refresh interval into a CookieSession strategy instance. -/
def NewCookieSessionAuthnStrategy (refreshInterval : Duration) : AuthnStrategy :=
  AuthnStrategy.CookieSession refreshInterval

/-- Modelled from the spec: the Authorization header strategy constructor. -/
def NewHeaderAuthorizationAuthnStrategy : AuthnStrategy :=
  AuthnStrategy.HeaderAuthorization

/-- Modelled from the spec: the Proxy-Authorization header strategy constructor. -/
def NewHeaderProxyAuthorizationAuthnStrategy : AuthnStrategy :=
  AuthnStrategy.HeaderProxyAuthorization

/-- Modelled from the spec: the auth-request flavoured Proxy-Authorization
header strategy constructor. -/
def NewHeaderAuthRequestProxyAuthorizationAuthnStrategy : AuthnStrategy :=
  AuthnStrategy.HeaderAuthRequestProxyAuthorization

/-- Modelled from the spec: the legacy combined header strategy constructor. -/
def NewHeaderLegacyAuthnStrategy : AuthnStrategy :=
  AuthnStrategy.HeaderLegacy

/-- Modelled from the spec: the implementation selector held by the builder
(spec §3: variant tag Legacy, ForwardAuth, AuthRequest). The builder starts
with the selector unset and the spec distinguishes that zero value from the
three named variants (spec §4.1 Build: any other value, including
ForwardAuth and unset). -/
inductive AuthzImpl where
  | unset
  | Legacy
  | ForwardAuth
  | AuthRequest
deriving DecidableEq

/-- The Legacy implementation constant. -/
def AuthzImplLegacy : AuthzImpl := AuthzImpl.Legacy

/-- The ForwardAuth implementation constant. -/
def AuthzImplForwardAuth : AuthzImpl := AuthzImpl.ForwardAuth

/-- The AuthRequest implementation constant. -/
def AuthzImplAuthRequest : AuthzImpl := AuthzImpl.AuthRequest

/-- Modelled from the spec: the configuration-facing name of each
implementation (spec §6: implementation name legacy, forward-auth or
auth-request). The unset zero value has no configuration name. -/
def implName : AuthzImpl → String
  | AuthzImpl.unset => ""
  | AuthzImpl.Legacy => "legacy"
  | AuthzImpl.ForwardAuth => "forward-auth"
  | AuthzImpl.AuthRequest => "auth-request"

/-- The method name used in the source for implName. -/
def AuthzImpl.String := implName

/-- An authorization domain: suffix name and optional portal URL. -/
structure AuthzDomain where
  Name : String
  PortalURL : Option String
deriving DecidableEq

/-- The engine-wide authorization configuration. -/
structure AuthzConfig where
  RefreshInterval : Duration
  Domains : List AuthzDomain
deriving DecidableEq

/-- The builder state: an AuthzConfig, an ordered strategy list and the
selected implementation. -/
structure AuthzBuilder where
  config : AuthzConfig
  strategies : List AuthnStrategy
  impl : AuthzImpl
deriving DecidableEq

/-- NewAuthzBuilder creates a new AuthzBuilder: RefreshInterval starts at
time.Second * -1, every other field at its zero value. -/
def NewAuthzBuilder : AuthzBuilder :=
  { config := { RefreshInterval := timeSecond * (-1), Domains := [] }
    strategies := []
    impl := AuthzImpl.unset }

/-- WithStrategies replaces all strategies in this builder with the
provided value. -/
def AuthzBuilder.WithStrategies (b : AuthzBuilder) (strategies : List AuthnStrategy) :
    AuthzBuilder :=
  { b with strategies := strategies }

/-- WithStrategyCookie adds the Cookie header strategy to the strategies in
this builder. -/
def AuthzBuilder.WithStrategyCookie (b : AuthzBuilder) (refreshInterval : Duration) :
    AuthzBuilder :=
  { b with strategies := b.strategies ++ [NewCookieSessionAuthnStrategy refreshInterval] }

/-- WithStrategyAuthorization adds the Authorization header strategy to the
strategies in this builder. -/
def AuthzBuilder.WithStrategyAuthorization (b : AuthzBuilder) : AuthzBuilder :=
  { b with strategies := b.strategies ++ [NewHeaderAuthorizationAuthnStrategy] }

/-- WithStrategyProxyAuthorization adds the Proxy-Authorization header
strategy to the strategies in this builder. -/
def AuthzBuilder.WithStrategyProxyAuthorization (b : AuthzBuilder) : AuthzBuilder :=
  { b with strategies := b.strategies ++ [NewHeaderProxyAuthorizationAuthnStrategy] }

/-- WithImplementationLegacy selects the Legacy implementation. -/
def AuthzBuilder.WithImplementationLegacy (b : AuthzBuilder) : AuthzBuilder :=
  { b with impl := AuthzImplLegacy }

/-- WithImplementationForwardAuth selects the ForwardAuth implementation. -/
def AuthzBuilder.WithImplementationForwardAuth (b : AuthzBuilder) : AuthzBuilder :=
  { b with impl := AuthzImplForwardAuth }

/-- WithImplementationAuthRequest selects the AuthRequest implementation. -/
def AuthzBuilder.WithImplementationAuthRequest (b : AuthzBuilder) : AuthzBuilder :=
  { b with impl := AuthzImplAuthRequest }

/-- Modelled from the spec: schema.ProfileRefreshDisabled, the sentinel
refresh-interval policy string meaning never re-validate (spec §6). -/
def ProfileRefreshDisabled : String := "disabled"

/-- Modelled from the spec: schema.ProfileRefreshAlways, the sentinel
refresh-interval policy string meaning re-validate on every request. -/
def ProfileRefreshAlways : String := "always"

/-- Modelled from the spec: utils.ParseDurationString parses an explicit
duration string (spec §6: refresh-interval policy string disabled, always
or a duration). The spec fixes no grammar for the duration form; it is
modelled as a decimal count of seconds, an unparsable string yielding the
zero duration (the source discards the parse error). No claim depends on
the grammar. -/
def ParseDurationString (s : String) : Duration :=
  match s.toNat? with
  | some n => (n : Int) * timeSecond
  | none => 0

/-- Modelled from the spec: the authentication-backend section of the
static configuration, carrying the refresh-interval policy string. -/
structure AuthenticationBackendConfig where
  RefreshInterval : String
deriving DecidableEq

/-- Modelled from the spec: the session section of the static
configuration, carrying the session cookie domain. -/
structure SessionConfig where
  Domain : String
deriving DecidableEq

/-- Modelled from the spec: the slice of schema.Configuration read by
WithConfig. -/
structure Configuration where
  AuthenticationBackend : AuthenticationBackendConfig
  Session : SessionConfig
deriving DecidableEq

/-- WithConfig converts a possibly nil *schema.Configuration to an
AuthzConfig and assigns it to the builder; a nil pointer leaves the builder
untouched. -/
def AuthzBuilder.WithConfig (b : AuthzBuilder) (config : Option Configuration) :
    AuthzBuilder :=
  match config with
  | none => b
  | some config =>
    let refreshInterval : Duration :=
      if config.AuthenticationBackend.RefreshInterval = ProfileRefreshDisabled then
        timeSecond * (-1)
      else if config.AuthenticationBackend.RefreshInterval = ProfileRefreshAlways then
        timeSecond * 0
      else
        ParseDurationString config.AuthenticationBackend.RefreshInterval
    { b with
        config :=
          { RefreshInterval := refreshInterval
            Domains := [{ Name := "." ++ config.Session.Domain, PortalURL := none }] } }

/-- Modelled from the spec: the strategy name constants (spec §3 variant
tags). -/
def AuthnStrategyCookieSession : String := "CookieSession"

/-- Modelled from the spec: name of the Authorization header strategy. -/
def AuthnStrategyHeaderAuthorization : String := "HeaderAuthorization"

/-- Modelled from the spec: name of the Proxy-Authorization header strategy. -/
def AuthnStrategyHeaderProxyAuthorization : String := "HeaderProxyAuthorization"

/-- Modelled from the spec: name of the auth-request Proxy-Authorization
header strategy. -/
def AuthnStrategyHeaderAuthRequestProxyAuthorization : String :=
  "HeaderAuthRequestProxyAuthorization"

/-- Modelled from the spec: name of the legacy header strategy. -/
def AuthnStrategyHeaderLegacy : String := "HeaderLegacy"

/-- Modelled from the spec: one entry of an endpoint configuration's
strategy list, carrying the strategy name. -/
structure EndpointAuthnStrategy where
  Name : String
deriving DecidableEq

/-- Modelled from the spec: schema.ServerAuthzEndpointConfig, carrying the
implementation name and the named strategy list (spec §6). -/
structure ServerAuthzEndpointConfig where
  Implementation : String
  AuthnStrategies : List EndpointAuthnStrategy
deriving DecidableEq

/-- One iteration of the strategy loop of WithEndpointConfig: append the
strategy named by the entry, ignoring unrecognized names. -/
def appendEndpointStrategy (b : AuthzBuilder) (strategy : EndpointAuthnStrategy) :
    AuthzBuilder :=
  if strategy.Name = AuthnStrategyCookieSession then
    { b with strategies := b.strategies ++ [NewCookieSessionAuthnStrategy b.config.RefreshInterval] }
  else if strategy.Name = AuthnStrategyHeaderAuthorization then
    { b with strategies := b.strategies ++ [NewHeaderAuthorizationAuthnStrategy] }
  else if strategy.Name = AuthnStrategyHeaderProxyAuthorization then
    { b with strategies := b.strategies ++ [NewHeaderProxyAuthorizationAuthnStrategy] }
  else if strategy.Name = AuthnStrategyHeaderAuthRequestProxyAuthorization then
    { b with strategies := b.strategies ++ [NewHeaderAuthRequestProxyAuthorizationAuthnStrategy] }
  else if strategy.Name = AuthnStrategyHeaderLegacy then
    { b with strategies := b.strategies ++ [NewHeaderLegacyAuthnStrategy] }
  else
    b

/-- WithEndpointConfig configures the AuthzBuilder with a
schema.ServerAuthzEndpointConfig: selects the implementation from its name
(defaulting to Legacy), clears the strategies, then appends one strategy
per recognized name in the endpoint strategy list. -/
def AuthzBuilder.WithEndpointConfig (b : AuthzBuilder)
    (config : ServerAuthzEndpointConfig) : AuthzBuilder :=
  let b :=
    if config.Implementation = AuthzImplForwardAuth.String then
      b.WithImplementationForwardAuth
    else if config.Implementation = AuthzImplAuthRequest.String then
      b.WithImplementationAuthRequest
    else
      b.WithImplementationLegacy
  let b := b.WithStrategies []
  List.foldl appendEndpointStrategy b config.AuthnStrategies

/-- WithAuthzConfig assigns an AuthzConfig to the builder directly. -/
def AuthzBuilder.WithAuthzConfig (b : AuthzBuilder) (config : AuthzConfig) :
    AuthzBuilder :=
  { b with config := config }

/-- Modelled from the spec: the object-derivation adapter functions that
Build can bind (one per implementation); the values are elsewhere in the
repository, so they are represented by name. -/
inductive ObjectGetFn where
  | authzGetObjectImplLegacy
  | authzGetObjectImplForwardAuth
  | authzGetObjectImplAuthRequest
deriving DecidableEq

/-- Modelled from the spec: the object-verification functions Build can
bind, represented by name. -/
inductive ObjectVerifyFn where
  | authzObjectVerifyStandard
deriving DecidableEq

/-- Modelled from the spec: the authorized-response renderers Build can
bind, represented by name. -/
inductive HandleAuthorizedFn where
  | authzHandleAuthorizedStandard
deriving DecidableEq

/-- Modelled from the spec: the unauthorized-response renderers Build can
bind, represented by name. -/
inductive HandleUnauthorizedFn where
  | authzHandleUnauthorizedImplLegacy
  | authzHandleUnauthorizedImplForwardAuth
  | authzHandleUnauthorizedImplAuthRequest
deriving DecidableEq

/-- The built decision engine: configuration, strategy chain and the four
bound adapter function slots (nil function pointers modelled as none). -/
structure Authz where
  config : AuthzConfig
  strategies : List AuthnStrategy
  fObjectGet : Option ObjectGetFn
  fObjectVerify : Option ObjectVerifyFn
  fHandleAuthorized : Option HandleAuthorizedFn
  fHandleUnauthorized : Option HandleUnauthorizedFn
deriving DecidableEq

/-- Build returns a new Authz from the currently configured options: the
standard verify and authorized-render functions, the configured strategies
(or an implementation-specific default pair when none were configured) and
the implementation-specific derive and unauthorized-render functions. -/
def AuthzBuilder.Build (b : AuthzBuilder) : Authz :=
  let authz : Authz :=
    { config := b.config
      strategies := b.strategies
      fObjectGet := none
      fObjectVerify := some ObjectVerifyFn.authzObjectVerifyStandard
      fHandleAuthorized := some HandleAuthorizedFn.authzHandleAuthorizedStandard
      fHandleUnauthorized := none }
  let authz :=
    if authz.strategies.length = 0 then
      { authz with
          strategies :=
            match b.impl with
            | AuthzImpl.Legacy =>
              [NewHeaderLegacyAuthnStrategy,
                NewCookieSessionAuthnStrategy b.config.RefreshInterval]
            | AuthzImpl.AuthRequest =>
              [NewHeaderAuthRequestProxyAuthorizationAuthnStrategy,
                NewCookieSessionAuthnStrategy b.config.RefreshInterval]
            | _ =>
              [NewHeaderProxyAuthorizationAuthnStrategy,
                NewCookieSessionAuthnStrategy b.config.RefreshInterval] }
    else
      authz
  match b.impl with
  | AuthzImpl.Legacy =>
    { authz with
        fObjectGet := some ObjectGetFn.authzGetObjectImplLegacy
        fHandleUnauthorized := some HandleUnauthorizedFn.authzHandleUnauthorizedImplLegacy }
  | AuthzImpl.ForwardAuth =>
    { authz with
        fObjectGet := some ObjectGetFn.authzGetObjectImplForwardAuth
        fHandleUnauthorized := some HandleUnauthorizedFn.authzHandleUnauthorizedImplForwardAuth }
  | AuthzImpl.AuthRequest =>
    { authz with
        fObjectGet := some ObjectGetFn.authzGetObjectImplAuthRequest
        fHandleUnauthorized := some HandleUnauthorizedFn.authzHandleUnauthorizedImplAuthRequest }
  | AuthzImpl.unset => authz

/-- Specification helper for stating claims: the strategy instance a named
entry of an endpoint strategy list produces, given the refresh interval
resolved in the builder configuration; none for an unrecognized name. -/
def authnStrategyOfName (refreshInterval : Duration) (name : String) :
    Option AuthnStrategy :=
  if name = AuthnStrategyCookieSession then
    some (NewCookieSessionAuthnStrategy refreshInterval)
  else if name = AuthnStrategyHeaderAuthorization then
    some NewHeaderAuthorizationAuthnStrategy
  else if name = AuthnStrategyHeaderProxyAuthorization then
    some NewHeaderProxyAuthorizationAuthnStrategy
  else if name = AuthnStrategyHeaderAuthRequestProxyAuthorization then
    some NewHeaderAuthRequestProxyAuthorizationAuthnStrategy
  else if name = AuthnStrategyHeaderLegacy then
    some NewHeaderLegacyAuthnStrategy
  else
    none

/-- Specification helper for stating claims: the object-derivation function
Build binds for each implementation value (none for the unset zero value,
whose slot stays nil). -/
def objectGetOfImpl : AuthzImpl → Option ObjectGetFn
  | AuthzImpl.Legacy => some ObjectGetFn.authzGetObjectImplLegacy
  | AuthzImpl.ForwardAuth => some ObjectGetFn.authzGetObjectImplForwardAuth
  | AuthzImpl.AuthRequest => some ObjectGetFn.authzGetObjectImplAuthRequest
  | AuthzImpl.unset => none

/-- Specification helper for stating claims: the unauthorized-response
renderer Build binds for each implementation value. -/
def handleUnauthorizedOfImpl : AuthzImpl → Option HandleUnauthorizedFn
  | AuthzImpl.Legacy => some HandleUnauthorizedFn.authzHandleUnauthorizedImplLegacy
  | AuthzImpl.ForwardAuth => some HandleUnauthorizedFn.authzHandleUnauthorizedImplForwardAuth
  | AuthzImpl.AuthRequest => some HandleUnauthorizedFn.authzHandleUnauthorizedImplAuthRequest
  | AuthzImpl.unset => none

/-- Modelled from the spec: a stored WebAuthn device registration; its
content is never inspected by the handler, only carried. -/
structure WebauthnDevice where
  KID : String
deriving DecidableEq

/-- The identity slice of a user session read by getWebAuthnUser. -/
structure UserSession where
  Username : String
  DisplayName : String
deriving DecidableEq

/-- The models.WebauthnUser value produced by getWebAuthnUser. -/
structure WebauthnUser where
  Username : String
  DisplayName : String
  Devices : List WebauthnDevice
deriving DecidableEq

/-- getWebAuthnUser builds a WebauthnUser from the session identity,
falling back to the username when the display name is empty, then loads the
stored devices; a storage error is returned with a nil user. The storage
provider call is passed in as a function from username to devices or
error. -/
def getWebAuthnUser
    (loadWebauthnDevicesByUsername : String → Except String (List WebauthnDevice))
    (userSession : UserSession) : Option WebauthnUser × Option String :=
  let user : WebauthnUser :=
    { Username := userSession.Username
      DisplayName := userSession.DisplayName
      Devices := [] }
  let user :=
    if user.DisplayName = "" then { user with DisplayName := user.Username } else user
  match loadWebauthnDevicesByUsername userSession.Username with
  | Except.error e => (none, some e)
  | Except.ok devices => (some { user with Devices := devices }, none)

/-- Modelled from the spec: the error a database row lookup can produce,
distinguishing the no-matching-row sentinel (sql.ErrNoRows) from every
other failure. -/
inductive SQLError where
  | ErrNoRows
  | other (message : String)
deriving DecidableEq

/-- The wrapped error LoadPreferred2FAMethod returns for a database failure
other than sql.ErrNoRows: a fixed context message, the username it was
formatted with, and the wrapped cause. -/
structure WrappedError where
  context : String
  username : String
  cause : SQLError
deriving DecidableEq

/-- LoadPreferred2FAMethod loads the preferred 2FA method for a username:
the stored method on success, the empty string without error when the query
matched no row, and the empty string with a wrapped error for any other
database failure. The database lookup outcome is passed in as an Except
value. -/
def LoadPreferred2FAMethod (username : String) (getResult : Except SQLError String) :
    String × Option WrappedError :=
  match getResult with
  | Except.ok method => (method, none)
  | Except.error err =>
    if err = SQLError.ErrNoRows then
      ("", none)
    else
      ("", some { context := "error selecting preferred two factor method for user"
                  username := username
                  cause := err })

/-- One loop iteration appends exactly the strategy named by the entry and
touches nothing else. -/
theorem appendEndpointStrategy_eq (b : AuthzBuilder) (e : EndpointAuthnStrategy) :
    appendEndpointStrategy b e =
      { b with
          strategies :=
            b.strategies ++ (authnStrategyOfName b.config.RefreshInterval e.Name).toList } := by
  unfold appendEndpointStrategy authnStrategyOfName
  split_ifs <;> simp

/-- The strategy loop appends one strategy per recognized name, in order,
and preserves the configuration and the implementation. -/
theorem foldl_appendEndpointStrategy (l : List EndpointAuthnStrategy) (b : AuthzBuilder) :
    List.foldl appendEndpointStrategy b l =
      { b with
          strategies :=
            b.strategies ++
              l.filterMap (fun e => authnStrategyOfName b.config.RefreshInterval e.Name) } := by
  induction l generalizing b with
  | nil => simp
  | cons e t ih =>
    rw [List.foldl_cons, appendEndpointStrategy_eq, ih]
    cases h : authnStrategyOfName b.config.RefreshInterval e.Name <;>
      simp [List.filterMap_cons, h]

/-- Full characterization of WithEndpointConfig: the configuration is
preserved, the implementation comes from the implementation name, and the
strategies are exactly the recognized entries of the endpoint list. -/
theorem withEndpointConfig_eq (b : AuthzBuilder) (cfg : ServerAuthzEndpointConfig) :
    b.WithEndpointConfig cfg =
      { config := b.config
        strategies :=
          cfg.AuthnStrategies.filterMap
            (fun e => authnStrategyOfName b.config.RefreshInterval e.Name)
        impl :=
          if cfg.Implementation = AuthzImplForwardAuth.String then AuthzImpl.ForwardAuth
          else if cfg.Implementation = AuthzImplAuthRequest.String then AuthzImpl.AuthRequest
          else AuthzImpl.Legacy } := by
  unfold AuthzBuilder.WithEndpointConfig
  split_ifs <;>
    simp [AuthzBuilder.WithImplementationForwardAuth, AuthzBuilder.WithImplementationAuthRequest,
      AuthzBuilder.WithImplementationLegacy, AuthzBuilder.WithStrategies,
      foldl_appendEndpointStrategy, AuthzImplForwardAuth, AuthzImplAuthRequest, AuthzImplLegacy]

/-- Full characterization of Build: configured strategies are kept when
present, the implementation-specific default pair is installed when none
were configured, and the four adapter function slots are bound from the
implementation. -/
theorem build_eq (b : AuthzBuilder) :
    b.Build =
      { config := b.config
        strategies :=
          if b.strategies.length = 0 then
            match b.impl with
            | AuthzImpl.Legacy =>
              [NewHeaderLegacyAuthnStrategy,
                NewCookieSessionAuthnStrategy b.config.RefreshInterval]
            | AuthzImpl.AuthRequest =>
              [NewHeaderAuthRequestProxyAuthorizationAuthnStrategy,
                NewCookieSessionAuthnStrategy b.config.RefreshInterval]
            | _ =>
              [NewHeaderProxyAuthorizationAuthnStrategy,
                NewCookieSessionAuthnStrategy b.config.RefreshInterval]
          else b.strategies
        fObjectGet := objectGetOfImpl b.impl
        fObjectVerify := some ObjectVerifyFn.authzObjectVerifyStandard
        fHandleAuthorized := some HandleAuthorizedFn.authzHandleAuthorizedStandard
        fHandleUnauthorized := handleUnauthorizedOfImpl b.impl } := by
  cases hi : b.impl <;>
    simp only [AuthzBuilder.Build, hi, objectGetOfImpl, handleUnauthorizedOfImpl] <;>
    split <;> rfl

/-- C1: For every builder whose strategy list is empty at Build(), Build
installs exactly the implementation-specific default strategy pair —
Legacy yields HeaderLegacy then CookieSession, AuthRequest yields
HeaderAuthRequestProxyAuthorization then CookieSession, and any other
implementation value (ForwardAuth and unset included) yields
HeaderProxyAuthorization then CookieSession — each default CookieSession
strategy bound to the builder configuration RefreshInterval. -/
theorem build_installs_default_strategy_pair (b : AuthzBuilder)
    (h : b.strategies = []) :
    (b.Build).strategies =
      match b.impl with
      | AuthzImpl.Legacy =>
        [NewHeaderLegacyAuthnStrategy,
          NewCookieSessionAuthnStrategy b.config.RefreshInterval]
      | AuthzImpl.AuthRequest =>
        [NewHeaderAuthRequestProxyAuthorizationAuthnStrategy,
          NewCookieSessionAuthnStrategy b.config.RefreshInterval]
      | _ =>
        [NewHeaderProxyAuthorizationAuthnStrategy,
          NewCookieSessionAuthnStrategy b.config.RefreshInterval] := by
  rw [build_eq]
  simp [h]

/-- Witness for C1 at the fresh builder, whose strategy list is empty and
whose implementation is unset. -/
theorem build_installs_default_strategy_pair_witness :
    NewAuthzBuilder.strategies = [] ∧
      (NewAuthzBuilder.Build).strategies =
        [NewHeaderProxyAuthorizationAuthnStrategy,
          NewCookieSessionAuthnStrategy NewAuthzBuilder.config.RefreshInterval] :=
  ⟨rfl, by
    have h := build_installs_default_strategy_pair NewAuthzBuilder rfl
    simpa using h⟩

/-- C2 counterexample: with the unrecognized implementation name "proxy"
and an empty strategy list, WithEndpointConfig followed by Build does not
yield the pair HeaderProxyAuthorization then CookieSession claimed — it
yields the Legacy pair instead. -/
theorem unrecognized_impl_name_not_forwardauth_default :
    ((NewAuthzBuilder.WithEndpointConfig
          { Implementation := "proxy", AuthnStrategies := [] }).Build).strategies ≠
      [NewHeaderProxyAuthorizationAuthnStrategy,
        NewCookieSessionAuthnStrategy NewAuthzBuilder.config.RefreshInterval] := by
  decide

/-- C2 amended: for every endpoint configuration whose implementation name
is neither "forward-auth" nor "auth-request" (unrecognized names included)
and whose strategy list is empty, WithEndpointConfig followed by Build
yields the Legacy default pair HeaderLegacy then CookieSession — an
unrecognized implementation name is treated the same as "legacy", not the
same as "forward-auth". -/
theorem unrecognized_impl_name_yields_legacy_default (b : AuthzBuilder)
    (cfg : ServerAuthzEndpointConfig)
    (h1 : cfg.Implementation ≠ AuthzImplForwardAuth.String)
    (h2 : cfg.Implementation ≠ AuthzImplAuthRequest.String)
    (h3 : cfg.AuthnStrategies = []) :
    ((b.WithEndpointConfig cfg).Build).strategies =
      [NewHeaderLegacyAuthnStrategy,
        NewCookieSessionAuthnStrategy b.config.RefreshInterval] := by
  rw [withEndpointConfig_eq, build_eq]
  simp [h1, h2, h3]

/-- Witness for C2 amended at the concrete unrecognized name "proxy". -/
theorem unrecognized_impl_name_yields_legacy_default_witness :
    ("proxy" ≠ AuthzImplForwardAuth.String ∧ "proxy" ≠ AuthzImplAuthRequest.String) ∧
      ((NewAuthzBuilder.WithEndpointConfig
            { Implementation := "proxy", AuthnStrategies := [] }).Build).strategies =
        [NewHeaderLegacyAuthnStrategy,
          NewCookieSessionAuthnStrategy NewAuthzBuilder.config.RefreshInterval] :=
  ⟨⟨by decide, by decide⟩,
    unrecognized_impl_name_yields_legacy_default NewAuthzBuilder
      { Implementation := "proxy", AuthnStrategies := [] } (by decide) (by decide) rfl⟩

/-- C3: WithEndpointConfig selects the implementation from the
configuration implementation name — ForwardAuth for the forward-auth name,
AuthRequest for the auth-request name, and Legacy for every other name. -/
theorem withEndpointConfig_selects_impl_from_name (b : AuthzBuilder)
    (cfg : ServerAuthzEndpointConfig) :
    (b.WithEndpointConfig cfg).impl =
      if cfg.Implementation = AuthzImplForwardAuth.String then AuthzImplForwardAuth
      else if cfg.Implementation = AuthzImplAuthRequest.String then AuthzImplAuthRequest
      else AuthzImplLegacy := by
  rw [withEndpointConfig_eq]
  rfl

/-- C4: every CookieSession strategy present after WithEndpointConfig is
bound to the RefreshInterval resolved in the builder configuration at the
time of the call; the fresh-builder default of that interval is the
disabled sentinel of minus one second; and a later WithConfig call leaves
the already-created strategy list untouched. -/
theorem withEndpointConfig_cookie_bound_to_resolved_interval (b : AuthzBuilder)
    (cfg : ServerAuthzEndpointConfig) (ri : Duration)
    (h : AuthnStrategy.CookieSession ri ∈ (b.WithEndpointConfig cfg).strategies) :
    ri = b.config.RefreshInterval ∧
      NewAuthzBuilder.config.RefreshInterval = timeSecond * (-1) ∧
      ∀ c : Option Configuration,
        ((b.WithEndpointConfig cfg).WithConfig c).strategies =
          (b.WithEndpointConfig cfg).strategies := by
  refine ⟨?_, rfl, ?_⟩
  · rw [withEndpointConfig_eq] at h
    simp only [List.mem_filterMap] at h
    obtain ⟨e, _, hsome⟩ := h
    unfold authnStrategyOfName at hsome
    split_ifs at hsome <;>
      simp [NewCookieSessionAuthnStrategy, NewHeaderAuthorizationAuthnStrategy,
        NewHeaderProxyAuthorizationAuthnStrategy,
        NewHeaderAuthRequestProxyAuthorizationAuthnStrategy,
        NewHeaderLegacyAuthnStrategy] at hsome
    exact hsome.symm
  · intro c
    cases c with
    | none => rfl
    | some c => rfl

/-- Witness for C4 at a fresh builder and an endpoint configuration
naming the CookieSession strategy. -/
theorem withEndpointConfig_cookie_bound_witness :
    AuthnStrategy.CookieSession (timeSecond * (-1)) ∈
        (NewAuthzBuilder.WithEndpointConfig
            { Implementation := ""
              AuthnStrategies := [{ Name := AuthnStrategyCookieSession }] }).strategies ∧
      timeSecond * (-1) = NewAuthzBuilder.config.RefreshInterval :=
  ⟨by decide,
    (withEndpointConfig_cookie_bound_to_resolved_interval NewAuthzBuilder
        { Implementation := ""
          AuthnStrategies := [{ Name := AuthnStrategyCookieSession }] }
        (timeSecond * (-1)) (by decide)).1⟩

/-- C5: WithEndpointConfig discards the previously accumulated strategies
and produces exactly one strategy per recognized name in the endpoint
strategy list, in list order, nothing for an unrecognized name and no
error — so the result depends only on the endpoint configuration and the
already-resolved RefreshInterval, never on earlier strategies. -/
theorem withEndpointConfig_strategies_from_endpoint_only (b : AuthzBuilder)
    (cfg : ServerAuthzEndpointConfig) :
    (b.WithEndpointConfig cfg).strategies =
      cfg.AuthnStrategies.filterMap
        (fun e => authnStrategyOfName b.config.RefreshInterval e.Name) := by
  rw [withEndpointConfig_eq]

/-- C6: WithConfig with a non-nil configuration resolves RefreshInterval
from the three-way policy (disabled sentinel to minus one second, always
sentinel to zero, parsed duration otherwise) and seeds exactly one domain
whose name is the session cookie domain with a leading dot and whose
portal URL is unset. -/
theorem withConfig_sets_refresh_and_domains (b : AuthzBuilder) (c : Configuration) :
    (b.WithConfig (some c)).config.RefreshInterval =
        (if c.AuthenticationBackend.RefreshInterval = ProfileRefreshDisabled then
          timeSecond * (-1)
        else if c.AuthenticationBackend.RefreshInterval = ProfileRefreshAlways then 0
        else ParseDurationString c.AuthenticationBackend.RefreshInterval) ∧
      (b.WithConfig (some c)).config.Domains =
        [{ Name := "." ++ c.Session.Domain, PortalURL := none }] := by
  constructor
  · simp only [AuthzBuilder.WithConfig]
    split_ifs <;> simp
  · rfl

/-- C7: Build binds the standard object-verification and
authorized-render functions for every builder, independently of the
implementation switch; only the object-derivation and unauthorized-render
slots are functions of the selected implementation. -/
theorem build_binds_adapter_functions (b : AuthzBuilder) :
    (b.Build).fObjectVerify = some ObjectVerifyFn.authzObjectVerifyStandard ∧
      (b.Build).fHandleAuthorized = some HandleAuthorizedFn.authzHandleAuthorizedStandard ∧
      (b.Build).fObjectGet = objectGetOfImpl b.impl ∧
      (b.Build).fHandleUnauthorized = handleUnauthorizedOfImpl b.impl := by
  rw [build_eq]
  exact ⟨rfl, rfl, rfl, rfl⟩

/-- C8: WithConfig with a nil configuration returns the builder with every
field unchanged — refresh interval, domains, strategies and
implementation. -/
theorem withConfig_nil_noop (b : AuthzBuilder) :
    (b.WithConfig none).config.RefreshInterval = b.config.RefreshInterval ∧
      (b.WithConfig none).config.Domains = b.config.Domains ∧
      (b.WithConfig none).strategies = b.strategies ∧
      (b.WithConfig none).impl = b.impl :=
  ⟨rfl, rfl, rfl, rfl⟩

/-- C9: getWebAuthnUser returns an error with a nil user exactly when
loading the stored devices errors; on success the user carries the session
username, the session display name with an empty display name replaced by
the username, and the loaded devices — so the display name is non-empty
whenever the username is. -/
theorem getWebAuthnUser_error_and_identity
    (load : String → Except String (List WebauthnDevice)) (s : UserSession) :
    (∀ e, load s.Username = Except.error e → getWebAuthnUser load s = (none, some e)) ∧
      (∀ ds, load s.Username = Except.ok ds →
        getWebAuthnUser load s =
          (some { Username := s.Username
                  DisplayName := if s.DisplayName = "" then s.Username else s.DisplayName
                  Devices := ds },
            none)) ∧
      ∀ u, (getWebAuthnUser load s).1 = some u → u.Username ≠ "" → u.DisplayName ≠ "" := by
  refine ⟨?_, ?_, ?_⟩
  · intro e he
    simp [getWebAuthnUser, he]
  · intro ds hds
    simp only [getWebAuthnUser, hds]
    split <;> rfl
  · intro u hu hU
    simp only [getWebAuthnUser] at hu
    cases hload : load s.Username with
    | error e => rw [hload] at hu; simp at hu
    | ok ds =>
      rw [hload] at hu
      simp only [Option.some.injEq] at hu
      subst hu
      by_cases hd : s.DisplayName = "" <;> simp_all

/-- Witness for C9 at a session with an empty display name and a storage
provider returning no devices. -/
theorem getWebAuthnUser_error_and_identity_witness :
    getWebAuthnUser (fun _ => Except.ok []) { Username := "alice", DisplayName := "" } =
      (some { Username := "alice", DisplayName := "alice", Devices := [] }, none) := by
  have h :=
    (getWebAuthnUser_error_and_identity (fun _ => Except.ok [])
        { Username := "alice", DisplayName := "" }).2.1 [] rfl
  simpa using h

/-- C10: LoadPreferred2FAMethod returns the stored method without error on
success, the empty string without error when the query matched no row, and
the empty string with a wrapped error carrying the original cause for any
other database failure. -/
theorem loadPreferred2FAMethod_error_handling (username : String)
    (r : Except SQLError String) :
    (∀ m, r = Except.ok m → LoadPreferred2FAMethod username r = (m, none)) ∧
      (r = Except.error SQLError.ErrNoRows →
        LoadPreferred2FAMethod username r = ("", none)) ∧
      ∀ e, r = Except.error e → e ≠ SQLError.ErrNoRows →
        LoadPreferred2FAMethod username r =
          ("", some { context := "error selecting preferred two factor method for user"
                      username := username
                      cause := e }) := by
  refine ⟨?_, ?_, ?_⟩
  · intro m hm
    simp [LoadPreferred2FAMethod, hm]
  · intro hr
    simp [LoadPreferred2FAMethod, hr]
  · intro e he hne
    simp [LoadPreferred2FAMethod, he, hne]

/-- Witness for C10 at a concrete username and a database failure that is
not the no-rows sentinel. -/
theorem loadPreferred2FAMethod_error_handling_witness :
    LoadPreferred2FAMethod "john" (Except.error (SQLError.other "connection reset")) =
      ("", some { context := "error selecting preferred two factor method for user"
                  username := "john"
                  cause := SQLError.other "connection reset" }) :=
  (loadPreferred2FAMethod_error_handling "john"
      (Except.error (SQLError.other "connection reset"))).2.2
    (SQLError.other "connection reset") rfl (by decide)

end Authelia
